import Mathlib

/-!
Verification of pydigitize (`scan.py`): a shallow embedding of the
orchestration logic of the scan pipeline, together with theorems about the
claims of the specification.

The external tools (`scanimage`, `tiffcp`, `tiff2pdf`, `ocrmypdf`, `mv`) are
modelled as opaque steps reporting exit codes; the filesystem is modelled as
the set of existing directories; the program's behaviour is captured by pure
functions returning `Except` values (a `.error` corresponds to `sys.exit(1)`
or an uncaught exception, i.e. the process terminating before later steps).
-/

set_option autoImplicit false

namespace Pydigitize

/-! ## Character and string helpers

`String.toList`/`String.mk` based re-implementations of the Python string
operations used by `scan.py`, kept structural so the kernel can evaluate them.
-/

/-- Split a character list at every occurrence of `sep`, like Python
`str.split(sep)`: `"" → [""]`, `"a..b" → ["a", "", "b"]`. -/
def splitChar (sep : Char) : List Char → List (List Char)
  | [] => [[]]
  | c :: rest =>
    let r := splitChar sep rest
    if c = sep then [] :: r
    else
      match r with
      | [] => [[c]]
      | w :: ws => (c :: w) :: ws

/-- Python `str.strip()`: drop whitespace from both ends. -/
def pyStrip (s : String) : String :=
  String.mk (((s.toList.dropWhile Char.isWhitespace).reverse.dropWhile
    Char.isWhitespace).reverse)

/-- Lexicographic comparison of strings by code point, as Python `sorted` uses. -/
def lexLe : List Char → List Char → Bool
  | [], _ => true
  | _ :: _, [] => false
  | a :: as, b :: bs =>
    if a.toNat < b.toNat then true
    else if b.toNat < a.toNat then false
    else lexLe as bs

/-- Insert a string into an ascending list (ascending by `lexLe`). -/
def insertSorted (x : String) : List String → List String
  | [] => [x]
  | y :: ys => if lexLe x.toList y.toList then x :: y :: ys else y :: insertSorted x ys

/-- Python `sorted` on a list of strings (insertion sort; total order, so the
result agrees with any stable sort). -/
def sortStrings (l : List String) : List String :=
  l.foldr insertSorted []

/-! ## Python `int()` parsing (line 110: `int(resolution)`)

Python's `int` accepts surrounding whitespace, one optional sign, and decimal
digits with single underscores strictly between digits.
-/

/-- After the first digit: digits with single underscores between digits. -/
def underscoreDigits : List Char → Bool
  | [] => true
  | ['_'] => false
  | '_' :: c :: rest => c.isDigit && underscoreDigits rest
  | c :: rest => c.isDigit && underscoreDigits rest

/-- A nonempty digit group as accepted by Python `int` (underscores allowed
only between digits). -/
def pyDigitsOk : List Char → Bool
  | [] => false
  | c :: rest => c.isDigit && underscoreDigits rest

/-- Numeric value of a digit list (underscores removed beforehand). -/
def digitsVal (cs : List Char) : Nat :=
  cs.foldl (fun acc c => acc * 10 + (c.toNat - 48)) 0

/-- Python `int(s)` for a string, `none` when `int` raises `ValueError`. -/
def parsePyInt (s : String) : Option Int :=
  match (pyStrip s).toList with
  | '+' :: rest =>
    if pyDigitsOk rest then some (Int.ofNat (digitsVal (rest.filter (fun c => c ≠ '_'))))
    else none
  | '-' :: rest =>
    if pyDigitsOk rest then some (-(Int.ofNat (digitsVal (rest.filter (fun c => c ≠ '_')))))
    else none
  | cs =>
    if pyDigitsOk cs then some (Int.ofNat (digitsVal (cs.filter (fun c => c ≠ '_'))))
    else none

/-! ## Resolution validation (lines 82, 105-115) -/

/-- Line 82: `VALID_RESOLUTIONS = (100, 200, 300, 400, 600)`. -/
def VALID_RESOLUTIONS : List Int := [100, 200, 300, 400, 600]

/-- Lines 109-113: `int(resolution) in VALID_RESOLUTIONS`, false as well when
`int()` raises `ValueError`. -/
def resolutionOk (s : String) : Bool :=
  match parsePyInt s with
  | none => false
  | some n => decide (n ∈ VALID_RESOLUTIONS)

/-! ## Timestamps (lines 83, 123-128) -/

/-- The fields of `datetime.datetime` that `strftime('%Y%m%d-%H%M%S')` reads. -/
structure DateTime where
  year : Nat
  month : Nat
  day : Nat
  hour : Nat
  minute : Nat
  second : Nat

/-- Zero-pad to two digits (`%m`, `%d`, `%H`, `%M`, `%S`). -/
def pad2 (n : Nat) : String :=
  if n < 10 then "0" ++ toString n else toString n

/-- Zero-pad to four digits (`%Y`). -/
def pad4 (n : Nat) : String :=
  if n < 10 then "000" ++ toString n
  else if n < 100 then "00" ++ toString n
  else if n < 1000 then "0" ++ toString n
  else toString n

/-- Embeds `START_TIME.strftime('%Y%m%d-%H%M%S')` (lines 125, 128). -/
def strftimeYmdHMS (t : DateTime) : String :=
  pad4 t.year ++ pad2 t.month ++ pad2 t.day ++ "-" ++
    pad2 t.hour ++ pad2 t.minute ++ pad2 t.second

/-- Line 127: `re.sub(r'[^0-9]', '', datestring)` — keep only the digits. -/
def stripNonDigits (s : String) : String :=
  String.mk (s.toList.filter Char.isDigit)

/-! ## Slugification (line 135)

`slugify(name, to_lower=True)` comes from the external slugify library, which
is not part of this repository.  We model its documented behaviour: lower-case
the text, keep alphanumeric runs as words, and join the words with hyphens.
-/

/-- Group a character list into maximal alphanumeric runs, dropping the other
characters (a non-alphanumeric character ends the current run). -/
def slugGroups (cs : List Char) : List (List Char) :=
  cs.foldr
    (fun c acc =>
      if c.isAlphanum then
        match acc with
        | [] => [[c]]
        | w :: ws => (c :: w) :: ws
      else [] :: acc)
    []

/-- Model of the external `slugify(name, to_lower=True)`: lower-cased
alphanumeric words joined by `-`. -/
def slugifyLower (s : String) : String :=
  String.intercalate "-"
    (((slugGroups (s.toList.map Char.toLower)).filter (fun w => w ≠ [])).map String.mk)

/-! ## Paths and the filesystem (lines 131-142)

The filesystem is modelled as the list of paths for which `os.path.isdir`
returns true.  `os.path.abspath` depends on the process working directory, so
it stays an abstract function of the environment.
-/

/-- The directories that exist, as seen by `os.path.isdir`. -/
structure FS where
  dirs : List String

/-- Embeds `os.path.isdir`. -/
def FS.isdir (fs : FS) (p : String) : Bool :=
  fs.dirs.contains p

/-- Embeds `os.path.dirname` (POSIX): the part before the last `/`, with trailing
slashes stripped unless the result is all slashes. -/
def dirname (p : String) : String :=
  let cs := p.toList
  let tailLen := (cs.reverse.takeWhile (fun c => c ≠ '/')).length
  let head := cs.take (cs.length - tailLen)
  if head.all (fun c => c = '/') then String.mk head
  else String.mk ((head.reverse.dropWhile (fun c => c = '/')).reverse)

/-- Embeds `os.path.join(dir, fn)` for the shapes used here: an absolute `fn` wins,
otherwise `fn` is appended after a single separator. -/
def joinPath (dir fn : String) : String :=
  match fn.toList with
  | '/' :: _ => fn
  | _ =>
    match dir.toList with
    | [] => fn
    | cs => if cs.getLast? = some '/' then dir ++ fn else dir ++ "/" ++ fn

/-- The ambient environment of one run: the filesystem, `START_TIME`, and
`os.path.abspath` (which depends on the working directory). -/
structure Env where
  fs : FS
  startTime : DateTime
  abspath : String → String

/-! ## Scan construction (`Scan.__init__`, lines 93-143) -/

/-- The attributes stored by `Scan.__init__`. -/
structure ScanT where
  resolution : String
  device : String
  outputPath : String
  keywords : Finset String
  deriving DecidableEq

/-- The two `sys.exit(1)` outcomes of `Scan.__init__`: an invalid resolution
(message names the valid set, line 107) and a missing output directory
(line 140). -/
inductive InitError where
  | invalidResolution (valid : List Int)
  | outputDirMissing
  deriving DecidableEq

/-- Lines 123-128: the filename timestamp — the supplied date string with
non-digits stripped, falling back to `START_TIME` when absent or when
stripping leaves the empty string (`datestring or START_TIME.strftime(...)`). -/
def timestampOf (env : Env) (datestring : Option String) : String :=
  match datestring with
  | none => strftimeYmdHMS env.startTime
  | some ds =>
    let stripped := stripNonDigits ds
    if stripped = "" then strftimeYmdHMS env.startTime else stripped

/-- Embeds `Scan.__init__` (lines 93-143): validate the resolution, store the
keywords, compute the timestamp, and resolve the output path. -/
def mkScan (env : Env) (resolution device output : String)
    (name datestring : Option String) (keywords : Option (Finset String)) :
    Except InitError ScanT :=
  if resolutionOk resolution then
    let kws := keywords.getD ∅
    let timestamp := timestampOf env datestring
    if env.fs.isdir output then
      let filename :=
        match name with
        | none => timestamp ++ ".pdf"
        | some n => timestamp ++ "-" ++ slugifyLower n ++ ".pdf"
      .ok ⟨resolution, device, env.abspath (joinPath output filename), kws⟩
    else if dirname output = "" || env.fs.isdir (dirname output) then
      .ok ⟨resolution, device, env.abspath output, kws⟩
    else
      .error InitError.outputDirMissing
  else
    .error (InitError.invalidResolution VALID_RESOLUTIONS)

/-! ## The pipeline (`Scan.process`, lines 145-229)

`prepare_directories` creates a fresh working directory; the other steps shell
out to external tools.  Each external call is modelled by the exit code the
tool reports (`RunEnv.exitCode`); `sh` raises — terminating the run — whenever
the code is outside the call's accepted list (`[0, 7]` for `scanimage`,
`[0]` for everything else).
-/

/-- The external calls made by one run, in order. -/
inductive Step where
  | scan
  | combine
  | convert
  | ocr
  | move
  deriving DecidableEq

/-- The observable invocations of the external tools, with the arguments the
code passes. -/
inductive Event where
  | scanned (x y : Nat) (device : String) (batch : Bool) (format : String)
      (resolution : String)
  | combined (files : List String) (out : String) (compression : String)
  | converted (pageSize inFile outFile : String)
  | ocred (lang : String) (deskew clean : Bool) (keywords : Option (Finset String))
      (inFile outFile : String)
  | moved (src dst : String)
  deriving DecidableEq

/-- A fatal tool failure: which step raised and the exit code it reported. -/
structure RunFailure where
  step : Step
  code : Nat
  deriving DecidableEq

/-- The run environment: the working directory created by
`prepare_directories`, the files matched by `glob.glob('out*.tif')`, and the
exit code each external call reports. -/
structure RunEnv where
  workdir : String
  tifFiles : List String
  exitCode : Step → Nat

/-- Is this event an `ocrmypdf` invocation? -/
def isOcrEvent : Event → Bool
  | .ocred .. => true
  | _ => false

/-- Embeds `Scan.process` (lines 203-229): scan (tolerating exit codes 0 and 7,
line 168), combine the sorted tiffs, convert to PDF, optionally OCR, then move
the resulting file to the output path.  The result is the trace of completed
tool invocations, or the first fatal failure. -/
def process (renv : RunEnv) (s : ScanT) (skipOcr : Bool) :
    Except RunFailure (List Event) :=
  if [0, 7].contains (renv.exitCode Step.scan) then
    if renv.exitCode Step.combine = 0 then
      if renv.exitCode Step.convert = 0 then
        let pre : List Event :=
          [Event.scanned 210 297 s.device true "tiff" s.resolution,
           Event.combined (sortStrings renv.tifFiles) "output.tif" "lzw",
           Event.converted "A4" "output.tif" "output.pdf"]
        if skipOcr then
          if renv.exitCode Step.move = 0 then
            .ok (pre ++ [Event.moved (renv.workdir ++ "/output.pdf") s.outputPath])
          else .error ⟨Step.move, renv.exitCode Step.move⟩
        else
          if renv.exitCode Step.ocr = 0 then
            if renv.exitCode Step.move = 0 then
              .ok (pre ++
                [Event.ocred "deu" true true
                  (if s.keywords = ∅ then none else some s.keywords)
                  "output.pdf" "clean.pdf",
                 Event.moved (renv.workdir ++ "/clean.pdf") s.outputPath])
            else .error ⟨Step.move, renv.exitCode Step.move⟩
          else .error ⟨Step.ocr, renv.exitCode Step.ocr⟩
      else .error ⟨Step.convert, renv.exitCode Step.convert⟩
    else .error ⟨Step.combine, renv.exitCode Step.combine⟩
  else .error ⟨Step.scan, renv.exitCode Step.scan⟩

/-! ## Profiles (`profiles.toml`, lines 251-295)

A TOML document is a nested table of strings, booleans, string arrays, and
sub-tables — the shapes `scan.py` reads from a profile.
-/

/-- A TOML value as loaded by `toml.loads`. -/
inductive Toml where
  | str (s : String)
  | boolv (b : Bool)
  | intv (n : Int)
  | arr (xs : List Toml)
  | table (entries : List (String × Toml))

/-- Embeds `dict.get` on a table's entries (first match; TOML keys are unique). -/
def tomlGet : List (String × Toml) → String → Option Toml
  | [], _ => none
  | (k, v) :: rest, key => if k = key then some v else tomlGet rest key

mutual

/-- Embeds `_parse_profile` for one entry (lines 260-268): a table contributes its
dotted name and recurses; other values contribute nothing. -/
def collectT (pre : Option String) (k : String) (v : Toml) : List String :=
  match v with
  | .table inner =>
    let newPre :=
      match pre with
      | none => k
      | some p => p ++ "." ++ k
    newPre :: collectL (some newPre) inner
  | _ => []

/-- Embeds `_parse_profile` over a table's entries (lines 270-271). -/
def collectL (pre : Option String) : List (String × Toml) → List String
  | [] => []
  | (k, v) :: rest => collectT pre k v ++ collectL pre rest

end

/-- Embeds `all_profiles`, sorted as printed on failure (line 282). -/
def availableSorted (profiles : List (String × Toml)) : List String :=
  sortStrings (collectL none profiles)

/-- Python `profile_name.split('.')` (line 276). -/
def splitDots (s : String) : List String :=
  (splitChar '.' s.toList).map String.mk

/-- Outcome of the profile lookup loop (lines 277-285): the value found; or
`sys.exit(1)` after printing "Profile not found" and the available names; or
an uncaught `AttributeError` from calling `.get` on a non-dict value. -/
inductive LookupResult where
  | found (t : Toml)
  | notFound (name : String) (available : List String)
  | attrError

/-- Did the lookup succeed? -/
def isFound : LookupResult → Bool
  | .found _ => true
  | _ => false

/-- The lookup loop (lines 277-285): walk the parts; `profile.get(part)` needs
the current value to be a dict — on a non-dict it raises `AttributeError`. -/
def lookupLoop (fullName : String) (avail : List String) :
    Toml → List String → LookupResult
  | cur, [] => .found cur
  | .table es, p :: rest =>
    match tomlGet es p with
    | none => .notFound fullName avail
    | some v => lookupLoop fullName avail v rest
  | _, _ :: _ => .attrError

/-- Lines 273-285: resolve a dotted profile name against the loaded document. -/
def findProfile (profiles : List (String × Toml)) (name : String) : LookupResult :=
  lookupLoop name (availableSorted profiles) (Toml.table profiles) (splitDots name)

/-- Does the dotted traversal meet a segment that is absent from a table?
(The complement, within failing lookups, is descending into a non-table.) -/
def missesInTable : Toml → List String → Bool
  | _, [] => false
  | .table es, p :: rest =>
    match tomlGet es p with
    | none => true
    | some v => missesInTable v rest
  | _, _ :: _ => false

/-! ## Argument resolution (`__main__`, lines 232-317) -/

/-- The docopt argument dictionary: `-p`, `-n`, `-t`, `-k` are `None` when
absent; `-d` and `-r` always carry a value (docopt fills in the defaults);
`OUTPUT` is the optional positional argument. -/
structure Args where
  profile : Option String
  nameArg : Option String
  dateArg : Option String
  keywordsArg : Option String
  device : String
  resolution : String
  output : Option String
  skipOcrFlag : Bool

/-- Python truthiness of an optional string (`if args['-n']:` …). -/
def optTruthy : Option String → Bool
  | none => false
  | some s => s != ""

/-- The `kwargs` dictionary handed to `Scan(**kwargs)`. -/
structure Kwargs where
  output : String
  name : Option String
  datestring : Option String
  keywords : Finset String
  resolution : String
  device : String
  deriving DecidableEq

attribute [ext] Kwargs

/-- Line 309: `[k.strip() for k in args['-k'].split(',')]`. -/
def parseKw (s : String) : List String :=
  (splitChar ',' s.toList).map (fun w => pyStrip (String.mk w))

/-- Extract the strings of a TOML array; `none` when an element is not a
string (such a profile is outside the shapes this development models). -/
def tomlStrings : List Toml → Option (List String)
  | [] => some []
  | Toml.str s :: rest => (tomlStrings rest).map (fun l => s :: l)
  | _ :: _ => none

/-- Lines 287-295: apply a found profile table to the accumulated kwargs.
`none` stands for a profile whose `path`/`name`/`ocr`/`keywords` entry has an
unexpected TOML type; no property below depends on that corner. -/
def applyProfile (kw : Kwargs) (skipOcr : Bool) (es : List (String × Toml)) :
    Option (Kwargs × Bool) := do
  let kw ←
    match tomlGet es "path" with
    | none => some kw
    | some (Toml.str s) => some { kw with output := s }
    | some _ => none
  let kw ←
    match tomlGet es "name" with
    | none => some kw
    | some (Toml.str s) => some { kw with name := some s }
    | some _ => none
  let so ←
    match tomlGet es "ocr" with
    | none => some skipOcr
    | some (Toml.boolv b) => some (!b)
    | some _ => none
  let kw ←
    match tomlGet es "keywords" with
    | none => some kw
    | some (Toml.arr xs) => do
      let strs ← tomlStrings xs
      some { kw with keywords := kw.keywords ∪ strs.toFinset }
    | some _ => none
  some (kw, so)

/-- Lines 298-299: `kwargs['resolution'] = args['-r']; kwargs['device'] = args['-d']`. -/
def flagResolutionDevice (kw : Kwargs) (args : Args) : Kwargs :=
  { kw with resolution := args.resolution, device := args.device }

/-- Lines 300-301: `if args['OUTPUT']: kwargs['output'] = args['OUTPUT']`. -/
def flagOutput (kw : Kwargs) (args : Args) : Kwargs :=
  match args.output with
  | some s => if s != "" then { kw with output := s } else kw
  | none => kw

/-- Lines 304-305: `if args['-n']: kwargs['name'] = args['-n']`. -/
def flagName (kw : Kwargs) (args : Args) : Kwargs :=
  match args.nameArg with
  | some s => if s != "" then { kw with name := some s } else kw
  | none => kw

/-- Lines 306-307: `if args['-t']: kwargs['datestring'] = args['-t']`. -/
def flagDate (kw : Kwargs) (args : Args) : Kwargs :=
  match args.dateArg with
  | some s => if s != "" then { kw with datestring := some s } else kw
  | none => kw

/-- Lines 308-310: `if args['-k']: kwargs['keywords'].update(...)`. -/
def flagKw (kw : Kwargs) (args : Args) : Kwargs :=
  match args.keywordsArg with
  | some s =>
    if s != "" then { kw with keywords := kw.keywords ∪ (parseKw s).toFinset } else kw
  | none => kw

/-- Lines 297-310: the command-line flag layer, applied last, in source
order; lines 302-303 can only switch `skip_ocr` on. -/
def applyFlags (kw : Kwargs) (skipOcr : Bool) (args : Args) : Kwargs × Bool :=
  (flagKw (flagDate (flagName (flagOutput (flagResolutionDevice kw args) args) args) args) args,
   if args.skipOcrFlag then true else skipOcr)

/-- The terminating outcomes of `__main__` before a trace is produced. -/
inductive MainError where
  | profileNotFound (name : String) (available : List String)
  | profileAttrError
  | profileTypeError
  | initError (e : InitError)
  | runError (e : RunFailure)

/-- Lines 244-248: the built-in default layer — the freshly created default
output directory and the keyword set `{'pydigitize'}`. -/
def defaultKwargs (defaultOutput : String) : Kwargs :=
  ⟨defaultOutput, none, none, {"pydigitize"}, "", ""⟩

/-- Lines 244-310: build the `kwargs` for `Scan(**kwargs)` and the `skip_ocr`
flag — defaults (line 245), then the profile layer, then the flag layer. -/
def resolveConfig (defaultOutput : String) (profilesFile : List (String × Toml))
    (args : Args) : Except MainError (Kwargs × Bool) :=
  match args.profile with
  | none => .ok (applyFlags (defaultKwargs defaultOutput) false args)
  | some pname =>
    match findProfile profilesFile pname with
    | .notFound n avail => .error (.profileNotFound n avail)
    | .attrError => .error .profileAttrError
    | .found (.table es) =>
      match applyProfile (defaultKwargs defaultOutput) false es with
      | some r => .ok (applyFlags r.1 r.2 args)
      | none => .error .profileTypeError
    | .found _ => .error .profileTypeError

/-- Lines 232-317: one whole invocation — resolve the configuration, construct
the `Scan`, run the pipeline. -/
def runMain (env : Env) (renv : RunEnv) (defaultOutput : String)
    (profilesFile : List (String × Toml)) (args : Args) :
    Except MainError (List Event) :=
  match resolveConfig defaultOutput profilesFile args with
  | .error e => .error e
  | .ok cfg =>
    match mkScan env cfg.1.resolution cfg.1.device cfg.1.output cfg.1.name
        cfg.1.datestring (some cfg.1.keywords) with
    | .error e => .error (.initError e)
    | .ok s =>
      match process renv s cfg.2 with
      | .error e => .error (.runError e)
      | .ok tr => .ok tr

/-! ## Concrete sample data used by the witness theorems -/

/-- A sample environment: `out` and `/d` exist, `START_TIME` is
2023-05-06 07:08:09, and the working directory is `/`. -/
def envW : Env := ⟨⟨["out", "/d"]⟩, ⟨2023, 5, 6, 7, 8, 9⟩, fun s => s⟩

/-- A sample run environment where every tool exits 0. -/
def renvW : RunEnv := ⟨"/tmp/w", ["out2.tif", "out1.tif"], fun _ => 0⟩

/-- A sample profiles document. -/
def pfW : List (String × Toml) :=
  [("inbox", Toml.table [("path", Toml.str "/scans")]), ("b", Toml.table [])]

/-- A profiles document on which the claimed universal profile-not-found
behaviour fails: `a` is a table whose `path` entry is a plain string. -/
def profilesCE : List (String × Toml) :=
  [("a", Toml.table [("path", Toml.str "/x")])]

/-- A profiles document whose `inbox` profile contributes the keyword
`inbox`. -/
def profilesC8 : List (String × Toml) :=
  [("inbox", Toml.table [("keywords", Toml.arr [Toml.str "inbox"])])]

/-- Arguments selecting the `inbox` profile and also passing `-k flagkw`. -/
def argsC8 : Args :=
  ⟨some "inbox", none, none, some "flagkw", "brother4:net1;dev0", "300", none, false⟩

/-- The keyword set contributed by the `-k` flag layer (line 308-310): the
comma-separated, stripped entries, or nothing when the flag is absent or
empty. -/
def flagKeywords (args : Args) : Finset String :=
  match args.keywordsArg with
  | some s => if s != "" then (parseKw s).toFinset else ∅
  | none => ∅

/-- A sample scan object with no keywords. -/
def sW : ScanT := ⟨"300", "dev", "/d/x.pdf", ∅⟩

/-- The trace of a fully successful run with OCR skipped, in `renvW`. -/
def trSkipW : List Event :=
  [Event.scanned 210 297 "dev" true "tiff" "300",
   Event.combined ["out1.tif", "out2.tif"] "output.tif" "lzw",
   Event.converted "A4" "output.tif" "output.pdf",
   Event.moved "/tmp/w/output.pdf" "/d/x.pdf"]

/-- The trace of a fully successful run with OCR, in `renvW`. -/
def trOcrW : List Event :=
  [Event.scanned 210 297 "dev" true "tiff" "300",
   Event.combined ["out1.tif", "out2.tif"] "output.tif" "lzw",
   Event.converted "A4" "output.tif" "output.pdf",
   Event.ocred "deu" true true none "output.pdf" "clean.pdf",
   Event.moved "/tmp/w/clean.pdf" "/d/x.pdf"]

/-- A run environment where the scanner reports exit code 7 (out of ADF
pages) and every other tool exits 0. -/
def renvC7 : RunEnv := ⟨"/tmp/w", [], fun st => if st = Step.scan then 7 else 0⟩

/-- The trace of a successful run in `renvC7`. -/
def trC7 : List Event :=
  [Event.scanned 210 297 "dev" true "tiff" "300",
   Event.combined [] "output.tif" "lzw",
   Event.converted "A4" "output.tif" "output.pdf",
   Event.ocred "deu" true true none "output.pdf" "clean.pdf",
   Event.moved "/tmp/w/clean.pdf" "/d/x.pdf"]

/-! ## Helper lemmas -/

/-- Step `flagOutput` sets `output` from a truthy positional argument. -/
theorem flagOutput_output (kw : Kwargs) (args : Args) :
    (flagOutput kw args).output =
      (if optTruthy args.output then args.output.getD "" else kw.output) := by
  unfold flagOutput optTruthy
  cases args.output <;> dsimp only
  · rfl
  · split <;> rfl

/-- Step `flagOutput` leaves every other field unchanged. -/
theorem flagOutput_rest (kw : Kwargs) (args : Args) :
    (flagOutput kw args).name = kw.name
    ∧ (flagOutput kw args).datestring = kw.datestring
    ∧ (flagOutput kw args).keywords = kw.keywords
    ∧ (flagOutput kw args).resolution = kw.resolution
    ∧ (flagOutput kw args).device = kw.device := by
  unfold flagOutput
  cases args.output <;> dsimp only
  · exact ⟨rfl, rfl, rfl, rfl, rfl⟩
  · split <;> exact ⟨rfl, rfl, rfl, rfl, rfl⟩

/-- Step `flagName` sets `name` from a truthy `-n` flag. -/
theorem flagName_name (kw : Kwargs) (args : Args) :
    (flagName kw args).name =
      (if optTruthy args.nameArg then args.nameArg else kw.name) := by
  unfold flagName optTruthy
  cases args.nameArg <;> dsimp only
  · rfl
  · split <;> rfl

/-- Step `flagName` leaves every other field unchanged. -/
theorem flagName_rest (kw : Kwargs) (args : Args) :
    (flagName kw args).output = kw.output
    ∧ (flagName kw args).datestring = kw.datestring
    ∧ (flagName kw args).keywords = kw.keywords
    ∧ (flagName kw args).resolution = kw.resolution
    ∧ (flagName kw args).device = kw.device := by
  unfold flagName
  cases args.nameArg <;> dsimp only
  · exact ⟨rfl, rfl, rfl, rfl, rfl⟩
  · split <;> exact ⟨rfl, rfl, rfl, rfl, rfl⟩

/-- Step `flagDate` sets `datestring` from a truthy `-t` flag. -/
theorem flagDate_datestring (kw : Kwargs) (args : Args) :
    (flagDate kw args).datestring =
      (if optTruthy args.dateArg then args.dateArg else kw.datestring) := by
  unfold flagDate optTruthy
  cases args.dateArg <;> dsimp only
  · rfl
  · split <;> rfl

/-- Step `flagDate` leaves every other field unchanged. -/
theorem flagDate_rest (kw : Kwargs) (args : Args) :
    (flagDate kw args).output = kw.output
    ∧ (flagDate kw args).name = kw.name
    ∧ (flagDate kw args).keywords = kw.keywords
    ∧ (flagDate kw args).resolution = kw.resolution
    ∧ (flagDate kw args).device = kw.device := by
  unfold flagDate
  cases args.dateArg <;> dsimp only
  · exact ⟨rfl, rfl, rfl, rfl, rfl⟩
  · split <;> exact ⟨rfl, rfl, rfl, rfl, rfl⟩

/-- Step `flagKw` unions in the keywords of a truthy `-k` flag. -/
theorem flagKw_keywords (kw : Kwargs) (args : Args) :
    (flagKw kw args).keywords = kw.keywords ∪ flagKeywords args := by
  unfold flagKw flagKeywords
  cases args.keywordsArg <;> dsimp only
  · rw [Finset.union_empty]
  · split
    · rfl
    · rw [Finset.union_empty]

/-- Step `flagKw` leaves every other field unchanged. -/
theorem flagKw_rest (kw : Kwargs) (args : Args) :
    (flagKw kw args).output = kw.output
    ∧ (flagKw kw args).name = kw.name
    ∧ (flagKw kw args).datestring = kw.datestring
    ∧ (flagKw kw args).resolution = kw.resolution
    ∧ (flagKw kw args).device = kw.device := by
  unfold flagKw
  cases args.keywordsArg <;> dsimp only
  · exact ⟨rfl, rfl, rfl, rfl, rfl⟩
  · split <;> exact ⟨rfl, rfl, rfl, rfl, rfl⟩

/-- The flag layer, field by field: `resolution`/`device` from the flags;
`output`, `name`, `datestring` overridden only when truthy; keywords unioned. -/
theorem applyFlags_fst_eta (kw : Kwargs) (so : Bool) (args : Args) :
    (applyFlags kw so args).1 =
      ⟨if optTruthy args.output then args.output.getD "" else kw.output,
       if optTruthy args.nameArg then args.nameArg else kw.name,
       if optTruthy args.dateArg then args.dateArg else kw.datestring,
       kw.keywords ∪ flagKeywords args,
       args.resolution, args.device⟩ := by
  show flagKw (flagDate (flagName (flagOutput (flagResolutionDevice kw args)
    args) args) args) args = _
  refine Kwargs.ext ?_ ?_ ?_ ?_ ?_ ?_
  · rw [(flagKw_rest _ _).1, (flagDate_rest _ _).1, (flagName_rest _ _).1,
      flagOutput_output]
    rfl
  · rw [(flagKw_rest _ _).2.1, (flagDate_rest _ _).2.1, flagName_name,
      (flagOutput_rest _ _).1]
    rfl
  · rw [(flagKw_rest _ _).2.2.1, flagDate_datestring, (flagName_rest _ _).2.1,
      (flagOutput_rest _ _).2.1]
    rfl
  · rw [flagKw_keywords, (flagDate_rest _ _).2.2.1, (flagName_rest _ _).2.2.1,
      (flagOutput_rest _ _).2.2.1]
    rfl
  · rw [(flagKw_rest _ _).2.2.2.1, (flagDate_rest _ _).2.2.2.1,
      (flagName_rest _ _).2.2.2.1, (flagOutput_rest _ _).2.2.2.1]
    rfl
  · rw [(flagKw_rest _ _).2.2.2.2, (flagDate_rest _ _).2.2.2.2,
      (flagName_rest _ _).2.2.2.2, (flagOutput_rest _ _).2.2.2.2]
    rfl

theorem applyFlags_resolution_device (kw : Kwargs) (so : Bool) (args : Args) :
    ((applyFlags kw so args).1).resolution = args.resolution
    ∧ ((applyFlags kw so args).1).device = args.device := by
  rw [applyFlags_fst_eta]
  exact ⟨rfl, rfl⟩

/-- Whatever configuration `__main__` resolves carries the command line's
resolution string. -/
theorem resolveConfig_resolution (d : String) (pf : List (String × Toml))
    (args : Args) (kw : Kwargs) (so : Bool)
    (h : resolveConfig d pf args = .ok (kw, so)) :
    kw.resolution = args.resolution := by
  unfold resolveConfig at h
  repeat' split at h
  all_goals try exact Except.noConfusion h
  all_goals
    rw [Except.ok.injEq] at h
    rw [show kw = (kw, so).1 from rfl, ← h]
    exact (applyFlags_resolution_device _ _ _).1

/-! ## Claim theorems -/

/-- C1: a resolution string that does not parse as a Python integer, or whose
value is outside {100, 200, 300, 400, 600}, makes `Scan.__init__` exit with a
message naming the valid set, and the whole run can never reach a pipeline
trace; with no profile involved, the run's outcome is exactly that error. -/
theorem c1_invalid_resolution (env : Env) (renv : RunEnv)
    (res dev out d : String) (nm ds : Option String)
    (kws : Option (Finset String)) (pf : List (String × Toml)) (args : Args)
    (hres : parsePyInt res = none ∨
      ∃ n : Int, parsePyInt res = some n ∧ n ∉ VALID_RESOLUTIONS)
    (hargs : args.resolution = res) :
    mkScan env res dev out nm ds kws =
      .error (InitError.invalidResolution VALID_RESOLUTIONS)
    ∧ (∀ tr, runMain env renv d pf args ≠ .ok tr)
    ∧ (args.profile = none →
        runMain env renv d pf args =
          .error (.initError (InitError.invalidResolution VALID_RESOLUTIONS))) := by
  have hok : resolutionOk res = false := by
    rcases hres with h | ⟨n, h1, h2⟩
    · simp [resolutionOk, h]
    · simp [resolutionOk, h1, h2]
  refine ⟨by simp [mkScan, hok], ?_, ?_⟩
  · intro tr h
    unfold runMain at h
    cases hrc : resolveConfig d pf args with
    | error e => rw [hrc] at h; exact absurd h (by simp)
    | ok cfg =>
      rw [hrc] at h
      dsimp only at h
      have hkw : cfg.1.resolution = res := by
        rw [resolveConfig_resolution d pf args cfg.1 cfg.2 (by rw [hrc]), hargs]
      rw [hkw] at h
      rw [show mkScan env res cfg.1.device cfg.1.output cfg.1.name cfg.1.datestring
          (some cfg.1.keywords) =
          .error (InitError.invalidResolution VALID_RESOLUTIONS) by
        simp [mkScan, hok]] at h
      exact absurd h (by simp)
  · intro hp
    have hr : resolveConfig d pf args =
        .ok (applyFlags (defaultKwargs d) false args) := by
      simp [resolveConfig, hp]
    unfold runMain
    rw [hr]
    dsimp only
    have hkw : ((applyFlags (defaultKwargs d) false args).1).resolution = res := by
      rw [(applyFlags_resolution_device _ _ _).1, hargs]
    rw [hkw]
    rw [show mkScan env res ((applyFlags (defaultKwargs d) false args).1).device
        ((applyFlags (defaultKwargs d) false args).1).output
        ((applyFlags (defaultKwargs d) false args).1).name
        ((applyFlags (defaultKwargs d) false args).1).datestring
        (some ((applyFlags (defaultKwargs d) false args).1).keywords) =
        .error (InitError.invalidResolution VALID_RESOLUTIONS) by
      simp [mkScan, hok]]

/-- C1 witness: the resolution string "500" is rejected with the valid set,
both in `Scan.__init__` and for the whole run. -/
theorem c1_invalid_resolution_witness :
    (∃ n : Int, parsePyInt "500" = some n ∧ n ∉ VALID_RESOLUTIONS)
    ∧ mkScan envW "500" "dev" "out" none none none =
        .error (InitError.invalidResolution VALID_RESOLUTIONS)
    ∧ runMain envW renvW "/d" pfW
        ⟨none, none, none, none, "dev", "500", some "out", false⟩ =
        .error (.initError (InitError.invalidResolution VALID_RESOLUTIONS)) := by
  have h := c1_invalid_resolution envW renvW "500" "dev" "out" "/d" none none none
    pfW ⟨none, none, none, none, "dev", "500", some "out", false⟩
    (Or.inr ⟨500, by decide, by decide⟩) rfl
  exact ⟨⟨500, by decide, by decide⟩, h.1, h.2.2 rfl⟩

/-- C2: with a valid resolution, an existing-directory destination gets a
synthesized filename inside it; a destination whose parent directory exists
(a bare filename counts, its parent being the working directory) is used
verbatim; anything else exits with the output-directory error — and within a
whole run that error occurs before any pipeline step, so no capture runs. -/
theorem c2_output_resolution (env : Env) (res dev out : String)
    (nm ds : Option String) (kws : Option (Finset String))
    (hres : resolutionOk res = true) :
    (env.fs.isdir out = true →
      ∃ fn, mkScan env res dev out nm ds kws =
        .ok ⟨res, dev, env.abspath (joinPath out fn), kws.getD ∅⟩)
    ∧ (env.fs.isdir out = false →
        (dirname out = "" ∨ env.fs.isdir (dirname out) = true) →
        mkScan env res dev out nm ds kws =
          .ok ⟨res, dev, env.abspath out, kws.getD ∅⟩)
    ∧ (env.fs.isdir out = false → dirname out ≠ "" →
        env.fs.isdir (dirname out) = false →
        mkScan env res dev out nm ds kws = .error InitError.outputDirMissing)
    ∧ (∀ (renv : RunEnv) (d : String) (pf : List (String × Toml)) (args : Args)
        (cfg : Kwargs × Bool),
        resolveConfig d pf args = .ok cfg → cfg.1.resolution = res →
        env.fs.isdir cfg.1.output = false → dirname cfg.1.output ≠ "" →
        env.fs.isdir (dirname cfg.1.output) = false →
        runMain env renv d pf args =
          .error (.initError InitError.outputDirMissing)) := by
  refine ⟨?_, ?_, ?_, ?_⟩
  · intro h
    refine ⟨match nm with
      | none => timestampOf env ds ++ ".pdf"
      | some n => timestampOf env ds ++ "-" ++ slugifyLower n ++ ".pdf", ?_⟩
    cases nm <;> simp [mkScan, hres, h]
  · intro h1 h2
    rcases h2 with h2 | h2 <;> simp [mkScan, hres, h1, h2]
  · intro h1 h2 h3
    simp [mkScan, hres, h1, h2, h3]
  · intro renv d pf args cfg hrc hr h1 h2 h3
    unfold runMain
    rw [hrc]
    dsimp only
    rw [show mkScan env cfg.1.resolution cfg.1.device cfg.1.output cfg.1.name
        cfg.1.datestring (some cfg.1.keywords) =
        .error InitError.outputDirMissing by
      rw [hr]; simp [mkScan, hres, h1, h2, h3]]

/-- C2 witness: with `/d` existing and `/nonexistent-dir` absent, the
destination `/nonexistent-dir/out.pdf` is rejected and the whole run stops
with the output-directory error before any pipeline step. -/
theorem c2_output_resolution_witness :
    resolutionOk "300" = true
    ∧ mkScan envW "300" "dev" "/d/out.pdf" none none none =
        .ok ⟨"300", "dev", "/d/out.pdf", ∅⟩
    ∧ mkScan envW "300" "dev" "/nonexistent-dir/out.pdf" none none none =
        .error InitError.outputDirMissing
    ∧ runMain envW renvW "/d" pfW
        ⟨none, none, none, none, "dev", "300", some "/nonexistent-dir/out.pdf", false⟩ =
        .error (.initError InitError.outputDirMissing) := by
  have h1 := c2_output_resolution envW "300" "dev" "/d/out.pdf" none none none
    (by decide)
  have h2 := c2_output_resolution envW "300" "dev" "/nonexistent-dir/out.pdf"
    none none none (by decide)
  refine ⟨by decide, ?_, h2.2.2.1 (by decide) (by decide) (by decide), ?_⟩
  · have := h1.2.1 (by decide) (Or.inr (by decide))
    exact this
  · exact h2.2.2.2 renvW "/d" pfW
      ⟨none, none, none, none, "dev", "300", some "/nonexistent-dir/out.pdf", false⟩
      _ rfl (by decide) (by decide) (by decide) (by decide)

/-- C3: when the destination is an existing directory, the filename is
`<timestamp>-<slug>.pdf` with a name (slug from the slugify model, which
lower-cases: `"My Document"` becomes `"my-document"`), `<timestamp>.pdf`
without one; with no date override the timestamp is
`START_TIME.strftime('%Y%m%d-%H%M%S')`, i.e. YYYYMMDD-HHMMSS. -/
theorem c3_synthesized_filename (env : Env) (res dev out nm : String)
    (kws : Option (Finset String))
    (hres : resolutionOk res = true) (hdir : env.fs.isdir out = true) :
    mkScan env res dev out (some nm) none kws =
      .ok ⟨res, dev,
        env.abspath (joinPath out
          (strftimeYmdHMS env.startTime ++ "-" ++ slugifyLower nm ++ ".pdf")),
        kws.getD ∅⟩
    ∧ mkScan env res dev out none none kws =
      .ok ⟨res, dev,
        env.abspath (joinPath out (strftimeYmdHMS env.startTime ++ ".pdf")),
        kws.getD ∅⟩
    ∧ slugifyLower "My Document" = "my-document" := by
  refine ⟨?_, ?_, by decide⟩ <;> simp [mkScan, hres, hdir, timestampOf]

/-- C3 witness: scanning into the existing directory `out` with name
`"My Document"` at start time 2023-05-06 07:08:09 produces
`out/20230506-070809-my-document.pdf`. -/
theorem c3_synthesized_filename_witness :
    resolutionOk "300" = true ∧ envW.fs.isdir "out" = true
    ∧ mkScan envW "300" "dev" "out" (some "My Document") none none =
        .ok ⟨"300", "dev", "out/20230506-070809-my-document.pdf", ∅⟩
    ∧ mkScan envW "300" "dev" "out" none none none =
        .ok ⟨"300", "dev", "out/20230506-070809.pdf", ∅⟩ := by
  have h := c3_synthesized_filename envW "300" "dev" "out" "My Document" none
    (by decide) (by decide)
  exact ⟨by decide, by decide, h.1, h.2.1⟩

/-- C4: every supplied date override is stripped to its digits before use:
the stripped string contains only digits and, when nonempty, is the filename
timestamp verbatim; `"2020-01-02"` yields `"20200102"`. -/
theorem c4_date_override_strip (env : Env) (ds : String)
    (h : stripNonDigits ds ≠ "") :
    timestampOf env (some ds) = stripNonDigits ds
    ∧ (stripNonDigits ds).toList.all Char.isDigit = true
    ∧ stripNonDigits "2020-01-02" = "20200102"
    ∧ timestampOf env (some "2020-01-02") = "20200102" := by
  refine ⟨by simp [timestampOf, h], ?_, by decide, ?_⟩
  · show (String.mk (ds.toList.filter Char.isDigit)).toList.all Char.isDigit = true
    rw [show (String.mk (ds.toList.filter Char.isDigit)).toList =
      ds.toList.filter Char.isDigit from rfl]
    simp [List.all_eq_true, List.mem_filter]
  · rw [show timestampOf env (some "2020-01-02") =
      (if ("20200102" : String) = "" then strftimeYmdHMS env.startTime
        else "20200102") from rfl]
    simp

/-- C4 witness: at the sample start time, the override `"2020-01-02"` is used
as the timestamp `"20200102"`. -/
theorem c4_date_override_strip_witness :
    stripNonDigits "2020-01-02" ≠ ""
    ∧ timestampOf envW (some "2020-01-02") = "20200102" := by
  have h := c4_date_override_strip envW "2020-01-02" (by decide)
  exact ⟨by decide, h.2.2.2⟩

/-- C10: a date override with no digit at all is not an error and does not
produce an empty timestamp: the timestamp falls back to the run's start time,
and `Scan.__init__` behaves exactly as with no override supplied. -/
theorem c10_digitless_override_fallback (env : Env) (res dev out : String)
    (nm : Option String) (kws : Option (Finset String)) (ds : String)
    (h : ds.toList.all (fun c => !c.isDigit) = true) :
    timestampOf env (some ds) = strftimeYmdHMS env.startTime
    ∧ mkScan env res dev out nm (some ds) kws =
        mkScan env res dev out nm none kws := by
  have hfil : ds.toList.filter Char.isDigit = [] := by
    rw [List.filter_eq_nil_iff]
    intro a ha
    have := List.all_eq_true.mp h a ha
    simpa using this
  have hstrip : stripNonDigits ds = "" := by
    unfold stripNonDigits
    rw [hfil]
  have ht : timestampOf env (some ds) = timestampOf env none := by
    simp [timestampOf, hstrip]
  exact ⟨ht, by unfold mkScan; rw [ht]⟩

/-- C10 witness: the all-letters override `"nodigits"` behaves exactly like no
override: the timestamp is the start time in YYYYMMDD-HHMMSS form. -/
theorem c10_digitless_override_fallback_witness :
    ("nodigits" : String).toList.all (fun c => !c.isDigit) = true
    ∧ timestampOf envW (some "nodigits") = "20230506-070809"
    ∧ mkScan envW "300" "dev" "out" none (some "nodigits") none =
        mkScan envW "300" "dev" "out" none none none := by
  have h := c10_digitless_override_fallback envW "300" "dev" "out" none none
    "nodigits" (by decide)
  exact ⟨by decide, by rw [h.1]; decide, h.2⟩

/-- C5: with the OCR-skip flag set, a completed run contains no `ocrmypdf`
invocation and the file moved to the output path is the pre-OCR `output.pdf`;
without the flag, `ocrmypdf` runs and the moved file is `clean.pdf`. -/
theorem c5_skip_ocr_gate (renv : RunEnv) (s : ScanT) :
    (∀ tr, process renv s true = .ok tr →
      (∀ e ∈ tr, isOcrEvent e = false)
      ∧ tr.getLast? =
          some (Event.moved (renv.workdir ++ "/output.pdf") s.outputPath))
    ∧ (∀ tr, process renv s false = .ok tr →
      (∃ e ∈ tr, isOcrEvent e = true)
      ∧ tr.getLast? =
          some (Event.moved (renv.workdir ++ "/clean.pdf") s.outputPath)) := by
  constructor <;> intro tr h <;> unfold process at h <;> repeat' split at h
  all_goals try exact Except.noConfusion h
  all_goals try (exfalso; simp_all; done)
  all_goals rw [Except.ok.injEq] at h
  all_goals subst h
  · exact ⟨by simp [isOcrEvent], rfl⟩
  · exact ⟨⟨Event.ocred "deu" true true none "output.pdf" "clean.pdf",
      by simp, rfl⟩, rfl⟩
  · exact ⟨⟨Event.ocred "deu" true true (some s.keywords) "output.pdf" "clean.pdf",
      by simp, rfl⟩, rfl⟩

/-- C5 witness: with all tools succeeding, the skip run produces the trace
`trSkipW`, ends by moving `output.pdf`, and its OCR-free-ness follows from the
theorem; the non-skip run produces `trOcrW` and ends by moving `clean.pdf`. -/
theorem c5_skip_ocr_gate_witness :
    process renvW sW true = .ok trSkipW
    ∧ trSkipW.getLast? = some (Event.moved "/tmp/w/output.pdf" "/d/x.pdf")
    ∧ isOcrEvent (Event.moved "/tmp/w/output.pdf" "/d/x.pdf") = false
    ∧ process renvW sW false = .ok trOcrW
    ∧ trOcrW.getLast? = some (Event.moved "/tmp/w/clean.pdf" "/d/x.pdf") := by
  have h := c5_skip_ocr_gate renvW sW
  exact ⟨rfl, (h.1 trSkipW rfl).2,
    (h.1 trSkipW rfl).1 (Event.moved "/tmp/w/output.pdf" "/d/x.pdf") (by decide),
    rfl, (h.2 trOcrW rfl).2⟩

/-- C7: every completed run scanned with geometry 210×297, the selected
device and resolution, and batch mode; a scan exit code outside {0, 7} is
fatal at the scan step; any nonzero combine or convert exit code is fatal at
that step (the run produces no trace, with no retry); and when the scan code
is in {0, 7} and the other tools exit 0 the run completes. -/
theorem c7_capture_contract (renv : RunEnv) (s : ScanT) (skip : Bool) :
    (∀ tr, process renv s skip = .ok tr →
      Event.scanned 210 297 s.device true "tiff" s.resolution ∈ tr)
    ∧ (renv.exitCode Step.scan ∉ ([0, 7] : List Nat) →
        process renv s skip = .error ⟨Step.scan, renv.exitCode Step.scan⟩)
    ∧ (renv.exitCode Step.scan ∈ ([0, 7] : List Nat) →
        renv.exitCode Step.combine ≠ 0 →
        process renv s skip = .error ⟨Step.combine, renv.exitCode Step.combine⟩)
    ∧ (renv.exitCode Step.scan ∈ ([0, 7] : List Nat) →
        renv.exitCode Step.combine = 0 → renv.exitCode Step.convert ≠ 0 →
        process renv s skip = .error ⟨Step.convert, renv.exitCode Step.convert⟩)
    ∧ (renv.exitCode Step.scan ∈ ([0, 7] : List Nat) →
        renv.exitCode Step.combine = 0 → renv.exitCode Step.convert = 0 →
        renv.exitCode Step.ocr = 0 → renv.exitCode Step.move = 0 →
        ∃ tr, process renv s skip = .ok tr) := by
  refine ⟨?_, ?_, ?_, ?_, ?_⟩
  · intro tr h
    unfold process at h
    repeat' split at h
    all_goals try exact Except.noConfusion h
    all_goals rw [Except.ok.injEq] at h
    all_goals rw [← h]
    all_goals simp
  · intro h1
    have h1' : renv.exitCode Step.scan ≠ 0 ∧ renv.exitCode Step.scan ≠ 7 := by
      simpa using h1
    simp [process, h1'.1, h1'.2]
  · intro h1 h2
    have h1' : renv.exitCode Step.scan = 0 ∨ renv.exitCode Step.scan = 7 := by
      simpa using h1
    rcases h1' with h | h <;> simp [process, h, h2]
  · intro h1 h2 h3
    have h1' : renv.exitCode Step.scan = 0 ∨ renv.exitCode Step.scan = 7 := by
      simpa using h1
    rcases h1' with h | h <;> simp [process, h, h2, h3]
  · intro h1 h2 h3 h4 h5
    have h1' : renv.exitCode Step.scan = 0 ∨ renv.exitCode Step.scan = 7 := by
      simpa using h1
    cases skip <;> rcases h1' with h | h <;>
      exact ⟨_, by simp [process, h, h2, h3, h4, h5]; rfl⟩

/-- C7 witness: with scan exiting 7 (end of ADF pages) and everything else 0
the run completes with trace `trC7`, which contains the fixed-geometry scan
invocation; scan code 1 is fatal at the scan step; combine code 2 is fatal at
the combine step. -/
theorem c7_capture_contract_witness :
    process renvC7 sW false = .ok trC7
    ∧ Event.scanned 210 297 "dev" true "tiff" "300" ∈ trC7
    ∧ process ⟨"/tmp/w", [], fun _ => 1⟩ sW false = .error ⟨Step.scan, 1⟩
    ∧ process ⟨"/tmp/w", [], fun st => if st = Step.combine then 2 else 0⟩
        sW false = .error ⟨Step.combine, 2⟩ := by
  have h1 := c7_capture_contract renvC7 sW false
  have h2 := c7_capture_contract ⟨"/tmp/w", [], fun _ => 1⟩ sW false
  have h3 := c7_capture_contract
    ⟨"/tmp/w", [], fun st => if st = Step.combine then 2 else 0⟩ sW false
  exact ⟨rfl, h1.1 trC7 rfl, h2.2.1 (by decide), h3.2.2.1 (by decide) (by decide)⟩

/-- C6 counterexample: the dotted name `a.path.b` has a segment (`b`) that
does not resolve to an entry, yet the lookup does not produce the
"profile not found" outcome with the available names — the traversal calls
`.get` on the string `"/x"` and dies with an `AttributeError` instead. -/
theorem c6_counterexample :
    isFound (findProfile profilesCE "a.path.b") = false
    ∧ findProfile profilesCE "a.path.b" = LookupResult.attrError
    ∧ findProfile profilesCE "a.path.b" ≠
        LookupResult.notFound "a.path.b" (availableSorted profilesCE) := by
  have he : findProfile profilesCE "a.path.b" = LookupResult.attrError := rfl
  refine ⟨rfl, he, fun h => ?_⟩
  rw [he] at h
  exact LookupResult.noConfusion h

/-- C6 (amended): for every dotted profile name whose traversal, while still
inside a table, meets a segment absent from that table — in particular when
the first segment is absent from the top level — the lookup yields exactly
the "profile not found" outcome carrying the sorted list of available profile
names, and the whole run terminates with that error before a `Scan` is
constructed or any pipeline step runs. -/
theorem c6_profile_not_found (pf : List (String × Toml)) (name : String)
    (h : missesInTable (Toml.table pf) (splitDots name) = true) :
    findProfile pf name = .notFound name (availableSorted pf)
    ∧ ∀ (env : Env) (renv : RunEnv) (d : String) (args : Args),
        args.profile = some name →
        runMain env renv d pf args =
          .error (.profileNotFound name (availableSorted pf)) := by
  have key : ∀ (parts : List String) (cur : Toml), missesInTable cur parts = true →
      lookupLoop name (availableSorted pf) cur parts =
        .notFound name (availableSorted pf) := by
    intro parts
    induction parts with
    | nil => intro cur hx; simp [missesInTable] at hx
    | cons p rest ih =>
      intro cur hx
      cases cur with
      | table es =>
        cases hg : tomlGet es p with
        | none => simp [lookupLoop, hg]
        | some v =>
          have hv : missesInTable v rest = true := by
            have := hx
            rw [show missesInTable (Toml.table es) (p :: rest) =
              (match tomlGet es p with
                | none => true
                | some v => missesInTable v rest) from rfl, hg] at this
            exact this
          simp [lookupLoop, hg, ih v hv]
      | str a => simp [missesInTable] at hx
      | boolv a => simp [missesInTable] at hx
      | intv a => simp [missesInTable] at hx
      | arr a => simp [missesInTable] at hx
  have h1 : findProfile pf name = .notFound name (availableSorted pf) :=
    key (splitDots name) (Toml.table pf) h
  refine ⟨h1, fun env renv d args hp => ?_⟩
  have hrc : resolveConfig d pf args =
      .error (.profileNotFound name (availableSorted pf)) := by
    unfold resolveConfig
    rw [hp]
    dsimp only
    rw [h1]
  unfold runMain
  rw [hrc]

/-- C6 witness: the name `zzz`, absent from the top level of the sample
profiles document, yields the "profile not found" outcome with the sorted
available names, and the run terminates with that error. -/
theorem c6_profile_not_found_witness :
    missesInTable (Toml.table pfW) (splitDots "zzz") = true
    ∧ findProfile pfW "zzz" = .notFound "zzz" (availableSorted pfW)
    ∧ runMain envW renvW "/d" pfW
        ⟨some "zzz", none, none, none, "dev", "300", none, false⟩ =
        .error (.profileNotFound "zzz" (availableSorted pfW)) := by
  have h := c6_profile_not_found pfW "zzz" (by decide)
  exact ⟨by decide, h.1,
    h.2 envW renvW "/d" ⟨some "zzz", none, none, none, "dev", "300", none, false⟩ rfl⟩

/-- A TOML array of plain strings extracts to exactly those strings. -/
theorem tomlStrings_map_str (l : List String) :
    tomlStrings (l.map Toml.str) = some l := by
  induction l with
  | nil => rfl
  | cons a as ih => simp [tomlStrings, ih]

/-- The OCR-skip flag can only switch skipping on (lines 302-303). -/
theorem applyFlags_snd (kw : Kwargs) (so : Bool) (args : Args) :
    (applyFlags kw so args).2 = (args.skipOcrFlag || so) := by
  unfold applyFlags
  cases args.skipOcrFlag <;> rfl

/-- Theorem: `Scan.__init__` stores exactly the keyword set it is given. -/
theorem mkScan_keywords (env : Env) (r dv o : String) (nm ds : Option String)
    (K : Finset String) (s' : ScanT)
    (h : mkScan env r dv o nm ds (some K) = .ok s') : s'.keywords = K := by
  unfold mkScan at h
  repeat' split at h
  all_goals try exact Except.noConfusion h
  all_goals rw [Except.ok.injEq] at h
  all_goals rw [← h]
  all_goals rfl

/-- Full characterization of the three-layer configuration merge when a
profile with well-typed entries is selected: `output`, `name` and the OCR
gate are overridden by later layers, `resolution` and `device` come from the
flags, and the keyword sets of all three layers are unioned. -/
theorem resolveConfig_profile_spec
    (d : String) (pf : List (String × Toml)) (args : Args) (pname : String)
    (es : List (String × Toml)) (pPath pName : Option String)
    (pOcr : Option Bool) (pKws : Option (List String))
    (hp : args.profile = some pname)
    (hfind : findProfile pf pname = .found (.table es))
    (hpath : tomlGet es "path" = pPath.map Toml.str)
    (hname : tomlGet es "name" = pName.map Toml.str)
    (hocr : tomlGet es "ocr" = pOcr.map Toml.boolv)
    (hkws : tomlGet es "keywords" =
      pKws.map (fun l => Toml.arr (l.map Toml.str))) :
    ∃ kw so, resolveConfig d pf args = .ok (kw, so)
      ∧ kw.output =
        (if optTruthy args.output then args.output.getD "" else pPath.getD d)
      ∧ kw.name = (if optTruthy args.nameArg then args.nameArg else pName)
      ∧ kw.datestring = (if optTruthy args.dateArg then args.dateArg else none)
      ∧ kw.resolution = args.resolution
      ∧ kw.device = args.device
      ∧ so = (args.skipOcrFlag || (pOcr.map (fun b => !b)).getD false)
      ∧ kw.keywords =
        ({"pydigitize"} ∪ (pKws.getD []).toFinset) ∪ flagKeywords args := by
  have happ : applyProfile (defaultKwargs d) false es =
      some (⟨pPath.getD d, pName, none,
        {"pydigitize"} ∪ (pKws.getD []).toFinset, "", ""⟩,
        (pOcr.map (fun b => !b)).getD false) := by
    cases pPath <;> cases pName <;> cases pOcr <;> cases pKws <;>
      simp [applyProfile, hpath, hname, hocr, hkws, tomlStrings_map_str,
        defaultKwargs]
  have hres2 : resolveConfig d pf args =
      .ok (applyFlags
        ⟨pPath.getD d, pName, none,
          {"pydigitize"} ∪ (pKws.getD []).toFinset, "", ""⟩
        ((pOcr.map (fun b => !b)).getD false) args) := by
    unfold resolveConfig
    rw [hp]
    dsimp only
    rw [hfind]
    dsimp only
    rw [happ]
  have heta := applyFlags_fst_eta
    ⟨pPath.getD d, pName, none, {"pydigitize"} ∪ (pKws.getD []).toFinset, "", ""⟩
    ((pOcr.map (fun b => !b)).getD false) args
  have hsnd := applyFlags_snd
    ⟨pPath.getD d, pName, none, {"pydigitize"} ∪ (pKws.getD []).toFinset, "", ""⟩
    ((pOcr.map (fun b => !b)).getD false) args
  refine ⟨_, _, by rw [hres2], ?_, ?_, ?_, ?_, ?_, hsnd, ?_⟩ <;> rw [heta]

/-- C8 counterexample: with the `inbox` profile contributing keyword `inbox`
and the flag layer setting keywords `flagkw`, the resolved keyword set keeps
the earlier layers' values — the flag layer did not override the keywords
field, contradicting "overriding … for every configuration field". -/
theorem c8_counterexample :
    (resolveConfig "/d" profilesC8 argsC8).toOption.map (fun p => p.1.keywords) =
      some ({"pydigitize", "inbox", "flagkw"} : Finset String)
    ∧ ({"pydigitize", "inbox", "flagkw"} : Finset String) ≠ {"flagkw"} := by
  constructor <;> decide

/-- C8 (amended): configuration is resolved in three layers — defaults, then
the named profile, then flags — where a later layer overrides the earlier
ones for `output`, `name`, `datestring` and the OCR gate, `resolution` and
`device` always come from the flag layer, and the keywords field is instead
accumulated as the union of all three layers. -/
theorem c8_layered_overrides
    (d : String) (pf : List (String × Toml)) (args : Args) (pname : String)
    (es : List (String × Toml)) (pPath pName : Option String)
    (pOcr : Option Bool) (pKws : Option (List String))
    (hp : args.profile = some pname)
    (hfind : findProfile pf pname = .found (.table es))
    (hpath : tomlGet es "path" = pPath.map Toml.str)
    (hname : tomlGet es "name" = pName.map Toml.str)
    (hocr : tomlGet es "ocr" = pOcr.map Toml.boolv)
    (hkws : tomlGet es "keywords" =
      pKws.map (fun l => Toml.arr (l.map Toml.str))) :
    ∃ kw so, resolveConfig d pf args = .ok (kw, so)
      ∧ kw.output =
        (if optTruthy args.output then args.output.getD "" else pPath.getD d)
      ∧ kw.name = (if optTruthy args.nameArg then args.nameArg else pName)
      ∧ kw.datestring = (if optTruthy args.dateArg then args.dateArg else none)
      ∧ kw.resolution = args.resolution
      ∧ kw.device = args.device
      ∧ so = (args.skipOcrFlag || (pOcr.map (fun b => !b)).getD false)
      ∧ kw.keywords =
        ({"pydigitize"} ∪ (pKws.getD []).toFinset) ∪ flagKeywords args :=
  resolveConfig_profile_spec d pf args pname es pPath pName pOcr pKws
    hp hfind hpath hname hocr hkws

/-- C8 witness: for the `inbox` profile (which sets `path` and nothing else)
together with a positional output and `-n`, the flag layer wins for `output`
and `name`, the profile's path would have been the fallback, and the keyword
set is the union of the layers. -/
theorem c8_layered_overrides_witness :
    (resolveConfig "/d" pfW
        ⟨some "inbox", some "nm", none, some "k1", "dev", "300",
          some "out", false⟩).toOption.map
        (fun p => (p.1.output, p.1.name, p.1.resolution, p.1.device, p.2,
          p.1.keywords)) =
      some ("out", some "nm", "300", "dev", false,
        ({"pydigitize"} ∪ ([] : List String).toFinset) ∪
          flagKeywords ⟨some "inbox", some "nm", none, some "k1", "dev", "300",
            some "out", false⟩) := by
  obtain ⟨kw, so, h0, h1, h2, h3, h4, h5, h6, h7⟩ := c8_layered_overrides "/d" pfW
    ⟨some "inbox", some "nm", none, some "k1", "dev", "300", some "out", false⟩
    "inbox" [("path", Toml.str "/scans")] (some "/scans") none none none
    rfl rfl rfl rfl rfl rfl
  rw [h0]
  simp only [Except.toOption, Option.map]
  rw [h1, h2, h4, h5, h6, h7]
  rfl

/-- C9: the keyword set handed to the scan object (and hence to the OCR
step) is the union of the built-in default `{'pydigitize'}`, the profile's
keywords, and the `-k` flag keywords; in particular `pydigitize` is always
among the keywords, and `Scan.__init__` stores that set unchanged. -/
theorem c9_keywords_union
    (d : String) (pf : List (String × Toml)) (args : Args) (pname : String)
    (es : List (String × Toml)) (pPath pName : Option String)
    (pOcr : Option Bool) (pKws : Option (List String))
    (hp : args.profile = some pname)
    (hfind : findProfile pf pname = .found (.table es))
    (hpath : tomlGet es "path" = pPath.map Toml.str)
    (hname : tomlGet es "name" = pName.map Toml.str)
    (hocr : tomlGet es "ocr" = pOcr.map Toml.boolv)
    (hkws : tomlGet es "keywords" =
      pKws.map (fun l => Toml.arr (l.map Toml.str))) :
    ∃ kw so, resolveConfig d pf args = .ok (kw, so)
      ∧ kw.keywords =
        ({"pydigitize"} ∪ (pKws.getD []).toFinset) ∪ flagKeywords args
      ∧ "pydigitize" ∈ kw.keywords
      ∧ ∀ (env : Env) (s' : ScanT),
          mkScan env kw.resolution kw.device kw.output kw.name kw.datestring
            (some kw.keywords) = .ok s' → s'.keywords = kw.keywords := by
  obtain ⟨kw, so, h0, _, _, _, _, _, _, h7⟩ := resolveConfig_profile_spec
    d pf args pname es pPath pName pOcr pKws hp hfind hpath hname hocr hkws
  refine ⟨kw, so, h0, h7, ?_, ?_⟩
  · rw [h7]
    simp
  · intro env s' hs
    exact mkScan_keywords env kw.resolution kw.device kw.output kw.name
      kw.datestring kw.keywords s' hs

/-- C9 witness: with the `inbox` profile contributing keyword `inbox` and the
flag layer `-k flagkw`, the resolved keyword set is the three-layer union and
contains `pydigitize`. -/
theorem c9_keywords_union_witness :
    (resolveConfig "/d" profilesC8 argsC8).toOption.map (fun p => p.1.keywords) =
      some (({"pydigitize"} ∪ (["inbox"] : List String).toFinset) ∪
        flagKeywords argsC8)
    ∧ "pydigitize" ∈
        (({"pydigitize"} ∪ (["inbox"] : List String).toFinset) ∪
          flagKeywords argsC8) := by
  obtain ⟨kw, so, h0, h1, h2, _⟩ := c9_keywords_union "/d" profilesC8 argsC8
    "inbox" [("keywords", Toml.arr [Toml.str "inbox"])] none none none
    (some ["inbox"]) rfl rfl rfl rfl rfl rfl
  have h1' : kw.keywords =
      ({"pydigitize"} ∪ (["inbox"] : List String).toFinset) ∪ flagKeywords argsC8 :=
    h1
  constructor
  · rw [h0]
    simp only [Except.toOption, Option.map]
    rw [h1']
  · rw [← h1']
    exact h2

end Pydigitize
